import Mathlib

/-!
Verification of the latent dynamics training scaffolding of torch-neural-ssm
(`src/models/CommonDynamics.py` and `src/utils/layers.py`).

Shallow embedding conventions: Python integers are `Int`, real-valued tensor
entries are `ℚ`, tensors are functions over `Fin` index types, and the
nondeterministic `np.random.randint` draw is an explicit parameter constrained
to the range the call allows.  Definitions whose doc comment does not say
otherwise are translated directly from the source; definitions named
`spec_...` follow the specification's wording instead, for comparison.
-/

namespace TorchNeuralSSM

/-- Possible results of `np.random.randint(low, high)`: the call returns some
`r` with `low ≤ r < high`, and raises `ValueError` when `low ≥ high`
(in that case no result is possible). -/
def randintPossible (low high r : Int) : Prop := low ≤ r ∧ r < high

instance (low high r : Int) : Decidable (randintPossible low high r) := by
  unfold randintPossible
  infer_instance

/-- Lower bound of the window-start draw in `get_step_outputs`
(CommonDynamics.py line 151): `generation_len`. -/
def random_start_low (generation_len : Int) : Int := generation_len

/-- Exclusive upper bound of the window-start draw (line 151):
`images.shape[1] - self.args.z_amort - generation_len`. -/
def random_start_high (T z_amort generation_len : Int) : Int :=
  T - z_amort - generation_len

/-- Length of the Python slice `a[s:e]` of a sequence of length `len`, for
nonnegative `s` and `e` (the only case the embedded code reaches). -/
def sliceLen (len s e : Int) : Int := max 0 (min e len - max s 0)

/-- Window-related outputs of `get_step_outputs`: the drawn start and the time
dimensions of the returned `images` and `states` tensors. -/
structure StepOutputs where
  random_start : Int
  images_time : Int
  states_time : Int
deriving DecidableEq

/-- The windowing of `get_step_outputs` (CommonDynamics.py lines 137-163),
parametrized by the `np.random.randint` draw `r`.  When `r` is a possible draw,
`images` and `states` are sliced to `[r, r + generation_len + z_amort)` and the
first `z_amort` frames are then dropped; when the draw range is empty or `r`
lies outside it there is no result (`np.random.randint` raises). -/
def get_step_outputs_model (T z_amort generation_len r : Int) : Option StepOutputs :=
  if random_start_low generation_len ≤ r ∧ r < random_start_high T z_amort generation_len then
    let sliced := sliceLen T r (r + generation_len + z_amort)
    some { random_start := r,
           images_time := sliceLen sliced z_amort sliced,
           states_time := sliceLen sliced z_amort sliced }
  else
    none

/-- Total training loss as built at CommonDynamics.py line 216:
`loss = likelihood + kl_factor * ((z0_beta * klz) + dynamics_loss)`. -/
def training_step_loss (likelihood klz dynamics_loss kl_factor z0_beta : ℚ) : ℚ :=
  likelihood + kl_factor * (z0_beta * klz + dynamics_loss)

/-- The total training loss as the specification words it, with a separate
`dynamics_beta` coefficient weighting the auxiliary dynamics loss inside the
annealing product. -/
def spec_total_loss (likelihood klz dynamics_loss kl_factor z0_beta dynamics_beta : ℚ) : ℚ :=
  likelihood + kl_factor * (z0_beta * klz + dynamics_beta * dynamics_loss)

/-- C1, as stated, is false: with `z_amort = 5`, `generation_len = 2` and
sequence length `T = 20`, the draw `r = 2` is possible (the range is `[2, 13)`)
yet `z_amort ≤ r` fails, because the code's lower bound is `generation_len`,
not `z_amort`. -/
theorem window_start_claim_false :
    randintPossible (random_start_low 2) (random_start_high 20 5 2) 2 ∧
    ¬ ((5:Int) ≤ 2 ∧ (2:Int) + 2 + 5 ≤ 20) := by
  decide

/-- C1 (amended): every possible window start `r` satisfies
`generation_len ≤ r` and `r + generation_len + z_amort ≤ T` (the lower bound
of the draw is `generation_len`, not `z_amort`; the upper claim holds). -/
theorem window_start_bounds (T z_amort generation_len r : Int)
    (h : randintPossible (random_start_low generation_len)
          (random_start_high T z_amort generation_len) r) :
    generation_len ≤ r ∧ r + generation_len + z_amort ≤ T := by
  rcases h with ⟨h1, h2⟩
  unfold random_start_low at h1
  unfold random_start_high at h2
  omega

/-- Witness for C1's amended theorem at `T = 20`, `z_amort = 5`,
`generation_len = 2`, draw `r = 3`. -/
theorem window_start_bounds_witness :
    randintPossible (random_start_low 2) (random_start_high 20 5 2) 3 ∧
    ((2:Int) ≤ 3 ∧ (3:Int) + 2 + 5 ≤ 20) :=
  ⟨by decide, window_start_bounds 20 5 2 3 (by decide)⟩

/-- C2, as stated, is false: the code has no `dynamics_beta` coefficient, so
the spec's formula with `dynamics_beta = 2` disagrees with the code's loss at
`likelihood = 0`, `klz = 0`, `dynamics_loss = 1`, `kl_factor = 1`,
`z0_beta = 0`. -/
theorem training_loss_claim_false :
    training_step_loss 0 0 1 1 0 ≠ spec_total_loss 0 0 1 1 0 2 := by
  unfold training_step_loss spec_total_loss
  norm_num

/-- C2 (amended): the training loss equals the spec's formula only with the
auxiliary dynamics loss entering unweighted, i.e. with `dynamics_beta = 1`. -/
theorem training_loss_unweighted_dynamics (l k d f bz : ℚ) :
    training_step_loss l k d f bz = spec_total_loss l k d f bz 1 := by
  unfold training_step_loss spec_total_loss
  ring

/-- Elementwise `nn.MSELoss(reduction = 'none')` (CommonDynamics.py line 52)
on `[B, T, H, W]` tensors. -/
def mse_none {B T H W : ℕ} (preds images : Fin B → Fin T → Fin H → Fin W → ℚ) :
    Fin B → Fin T → Fin H → Fin W → ℚ :=
  fun b t h w => (preds b t h w - images b t h w) ^ 2

/-- `tensor.sum([2, 3])` on a `[B, T, H, W]` tensor: sum over the two spatial
dimensions, leaving a `[B, T]` tensor. -/
def sum_dims_23 {B T H W : ℕ} (x : Fin B → Fin T → Fin H → Fin W → ℚ) :
    Fin B → Fin T → ℚ :=
  fun b t => ∑ h, ∑ w, x b t h w

/-- `tensor.flatten().mean()` on a `[B, T]` tensor: the mean of all `B * T`
entries. -/
def flatten_mean {B T : ℕ} (x : Fin B → Fin T → ℚ) : ℚ :=
  (∑ b, ∑ t, x b t) / (B * T : ℚ)

/-- The reconstruction likelihood computed at CommonDynamics.py line 174:
`self.reconstruction_loss(preds, images).sum([2, 3]).flatten().mean()`. -/
def step_likelihood {B T H W : ℕ} (preds images : Fin B → Fin T → Fin H → Fin W → ℚ) : ℚ :=
  flatten_mean (sum_dims_23 (mse_none preds images))

/-- The reconstruction likelihood as the specification words it: squared error
summed over all non-batch dimensions, then averaged over the batch only. -/
def spec_likelihood {B T H W : ℕ} (preds images : Fin B → Fin T → Fin H → Fin W → ℚ) : ℚ :=
  (∑ b, ∑ t, ∑ h, ∑ w, (preds b t h w - images b t h w) ^ 2) / (B : ℚ)

/-- C3, as stated, is false: with batch size 1, two time steps and one pixel,
squared errors 1 and 9 give `(1 + 9) / 2 = 5` in the code but `(1 + 9) / 1 = 10`
under the spec's batch-only mean — the code averages over time as well. -/
theorem likelihood_claim_false :
    step_likelihood (B := 1) (T := 2) (H := 1) (W := 1)
        (fun _ t _ _ => if t.val = 0 then 1 else 3) (fun _ _ _ _ => 0) ≠
      spec_likelihood (B := 1) (T := 2) (H := 1) (W := 1)
        (fun _ t _ _ => if t.val = 0 then 1 else 3) (fun _ _ _ _ => 0) := by
  unfold step_likelihood spec_likelihood flatten_mean sum_dims_23 mse_none
  norm_num [Fin.sum_univ_two, Fin.sum_univ_one]

/-- C3 (amended): the likelihood is the squared error summed over the spatial
dimensions (height, width) and then averaged over batch and time jointly,
i.e. divided by `B * T`, not by `B` alone. -/
theorem likelihood_mean_over_batch_and_time {B T H W : ℕ}
    (preds images : Fin B → Fin T → Fin H → Fin W → ℚ) :
    step_likelihood preds images =
      (∑ b, ∑ t, ∑ h, ∑ w, (preds b t h w - images b t h w) ^ 2) / (B * T : ℚ) := rfl

/-- Validation loss as built at CommonDynamics.py line 279:
`loss = likelihood + dynamics_loss`; the `klz` term returned by
`get_step_losses` at line 258 is not used in the loss. -/
def validation_step_loss (likelihood klz dynamics_loss : ℚ) : ℚ :=
  likelihood + dynamics_loss

/-- Validation loss as the specification words it: the training composition
with no annealing factor and the KL term fully weighted (weight 1). -/
def spec_validation_loss (likelihood klz dynamics_loss : ℚ) : ℚ :=
  likelihood + klz + dynamics_loss

/-- C4, as stated, is false: at `likelihood = 0`, `klz = 1`,
`dynamics_loss = 0` the code's validation loss is 0 while a loss with the KL
term at weight 1 would be 1 — the KL term is absent from the validation loss. -/
theorem validation_loss_claim_false :
    validation_step_loss 0 1 0 ≠ spec_validation_loss 0 1 0 := by
  unfold validation_step_loss spec_validation_loss
  norm_num

/-- C4 (amended): the validation loss is `likelihood + dynamics_loss` with the
KL term omitted entirely (weight 0, not 1), and no annealing factor. -/
theorem validation_loss_omits_kl (l k d : ℚ) :
    validation_step_loss l k d = l + 0 * k + d := by
  unfold validation_step_loss
  ring

/-- C5, as stated, is false: with sequence length 20, `z_amort = 5` and
`generation_len = 10` the drawn range is `[10, 5)`, which is empty — in
particular the spec's claimed draw `random_start = 5` is impossible and
`get_step_outputs` produces no outputs. -/
theorem scenario_claim_false :
    get_step_outputs_model 20 5 10 5 = none ∧
    random_start_high 20 5 10 < random_start_low 10 := by
  decide

/-- C5 (amended): for a batch of sequences of length 20 with `z_amort = 5` and
`generation_len = 10`, the window-start range `[10, 5)` is empty, so
`np.random.randint` raises and `get_step_outputs` fails for every conceivable
draw; no tensors are returned. -/
theorem scenario_empty_range (r : Int) :
    get_step_outputs_model 20 5 10 r = none := by
  unfold get_step_outputs_model random_start_low random_start_high
  split
  case isTrue h => exact absurd h (by omega)
  case isFalse h => rfl

/-- Names in the tuple returned by `get_step_outputs` (CommonDynamics.py
line 163): `return images, states, labels, preds, embeddings`. -/
def get_step_outputs_returns : List String :=
  ["images", "states", "labels", "preds", "embeddings"]

/-- Names `test_step` unpacks the result of `get_step_outputs` into
(line 304): `images, images_rev, states, labels, preds, embeddings = ...`. -/
def test_step_unpack_names : List String :=
  ["images", "images_rev", "states", "labels", "preds", "embeddings"]

/-- Python tuple unpacking `a, b, ... = t`: binds each name to the matching
component and raises `ValueError` when the arities differ. -/
def tuple_unpack (names : List String) (vals : List String) :
    Option (List (String × String)) :=
  if names.length = vals.length then some (names.zip vals) else none

/-- Keys of the record `test_step` intends to return (lines 305-306). -/
def test_step_return_keys : List String :=
  ["states", "embeddings", "preds", "images", "labels"]

/-- C6: the intended record has exactly the five output keys and no loss
entry, but the unpacking at line 304 asks for six names from the five-tuple
`get_step_outputs` returns, so every `test_step` call raises `ValueError`
before building the record. -/
theorem test_step_unpack_mismatch :
    tuple_unpack test_step_unpack_names get_step_outputs_returns = none ∧
    test_step_return_keys = ["states", "embeddings", "preds", "images", "labels"] ∧
    "loss" ∉ test_step_return_keys := by
  decide

/-- Modelled from the spec: `determine_annealing_factor` is imported from
`utils/utils.py`, which is not among the provided sources.  Per the spec the
factor ramps linearly from near zero to 1 over `anneal_update` updates
(default 1000) as a function of the global update counter, then holds at 1. -/
def determine_annealing_factor (n_updates anneal_update : ℕ) : ℚ :=
  min 1 ((n_updates : ℚ) / (anneal_update : ℚ))

/-- C7: with the anneal horizon 1000 used at CommonDynamics.py line 212, the
annealing factor is non-decreasing in the update counter, equals 0 at
counter 0, and equals exactly 1 for every counter at or past the horizon. -/
theorem annealing_factor_schedule (m n : ℕ) (hmn : m ≤ n) :
    determine_annealing_factor m 1000 ≤ determine_annealing_factor n 1000 ∧
    determine_annealing_factor 0 1000 = 0 ∧
    (1000 ≤ n → determine_annealing_factor n 1000 = 1) := by
  refine ⟨?_, ?_, ?_⟩
  · have h : ((m : ℚ)) ≤ ((n : ℚ)) := by exact_mod_cast hmn
    unfold determine_annealing_factor
    exact min_le_min le_rfl (by gcongr)
  · simp [determine_annealing_factor]
  · intro hn
    have h : (1000 : ℚ) ≤ (n : ℚ) := by exact_mod_cast hn
    unfold determine_annealing_factor
    rw [min_eq_left]
    rw [le_div_iff₀ (by norm_num)]
    push_cast
    linarith

/-- Witness for C7 at `m = 0`, `n = 1000`. -/
theorem annealing_factor_schedule_witness :
    (0 ≤ 1000) ∧
    (determine_annealing_factor 0 1000 ≤ determine_annealing_factor 1000 1000 ∧
     determine_annealing_factor 0 1000 = 0 ∧
     (1000 ≤ 1000 → determine_annealing_factor 1000 1000 = 1)) :=
  ⟨by decide, annealing_factor_schedule 0 1000 (by decide)⟩

/-- The `Gaussian` sampling layer of utils/layers.py (lines 10-63).  The two
feed-forward heads are abstracted as functions from the input vector to the
output vector; `fix_variance` mirrors the constructor flag. -/
structure Gaussian (inDim outDim : ℕ) where
  fix_variance : Bool
  mu : (Fin inDim → ℚ) → Fin outDim → ℚ
  logvar : (Fin inDim → ℚ) → Fin outDim → ℚ

/-- The triple `(mu, logvar, z)` returned by `Gaussian.forward`. -/
structure GaussianOut (outDim : ℕ) where
  mu : Fin outDim → ℚ
  logvar : Fin outDim → ℚ
  z : Fin outDim → ℚ

/-- `reparameterize` (layers.py lines 37-42): `z = mu + noise * exp(0.5 *
logvar)`, with the exponential abstracted as `expQ` and the standard-normal
draw passed in as `noise`. -/
def Gaussian.reparameterize {outDim : ℕ} (expQ : ℚ → ℚ)
    (mu logvar noise : Fin outDim → ℚ) : Fin outDim → ℚ :=
  fun i => mu i + noise i * expQ (1 / 2 * logvar i)

/-- `forward` (layers.py lines 44-63): `mu` from the mean head; `logvar` is
the constant `0.1` field (`torch.full_like(mu, 0.1)`) when `fix_variance` and
the log-variance head's output otherwise; `z` by reparameterization. -/
def Gaussian.forward {inDim outDim : ℕ} (g : Gaussian inDim outDim)
    (expQ : ℚ → ℚ) (noise : Fin outDim → ℚ) (x : Fin inDim → ℚ) :
    GaussianOut outDim :=
  let mu := g.mu x
  let logvar := if g.fix_variance then (fun _ => (1 : ℚ) / 10) else g.logvar x
  { mu := mu, logvar := logvar, z := Gaussian.reparameterize expQ mu logvar noise }

/-- C8: when `fix_variance` is set, every entry of the forwarded log-variance
equals the constant `0.1`; the log-variance output is the same for every pair
of inputs, and only the mean output depends on the input through the mean
head. -/
theorem fixed_variance_constant_logvar {inDim outDim : ℕ}
    (g : Gaussian inDim outDim) (hfix : g.fix_variance = true)
    (expQ : ℚ → ℚ) (noise : Fin outDim → ℚ) (x y : Fin inDim → ℚ) :
    (∀ i, (g.forward expQ noise x).logvar i = 1 / 10) ∧
    (g.forward expQ noise x).logvar = (g.forward expQ noise y).logvar ∧
    (g.forward expQ noise x).mu = g.mu x := by
  unfold Gaussian.forward
  simp [hfix]

/-- Witness for C8: a concrete fixed-variance layer whose log-variance head
would output 5 still forwards the constant `0.1` log-variance. -/
theorem fixed_variance_constant_logvar_witness :
    ((⟨true, fun _ _ => 0, fun _ _ => 5⟩ : Gaussian 1 1).fix_variance = true) ∧
    ((∀ i, ((⟨true, fun _ _ => 0, fun _ _ => 5⟩ : Gaussian 1 1).forward
        (fun q => q) (fun _ => 0) (fun _ => 0)).logvar i = 1 / 10) ∧
     ((⟨true, fun _ _ => 0, fun _ _ => 5⟩ : Gaussian 1 1).forward
        (fun q => q) (fun _ => 0) (fun _ => 0)).logvar =
       ((⟨true, fun _ _ => 0, fun _ _ => 5⟩ : Gaussian 1 1).forward
        (fun q => q) (fun _ => 0) (fun _ => 1)).logvar ∧
     ((⟨true, fun _ _ => 0, fun _ _ => 5⟩ : Gaussian 1 1).forward
        (fun q => q) (fun _ => 0) (fun _ => 0)).mu =
       (⟨true, fun _ _ => 0, fun _ _ => 5⟩ : Gaussian 1 1).mu (fun _ => 0)) :=
  ⟨rfl, fixed_variance_constant_logvar ⟨true, fun _ _ => 0, fun _ _ => 5⟩ rfl
    (fun q => q) (fun _ => 0) (fun _ => 0) (fun _ => 1)⟩

/-- Zero-padded three-digit block for the fractional part of a `0.3f` field. -/
def pad3 (n : ℕ) : String :=
  if n < 10 then "00" ++ toString n
  else if n < 100 then "0" ++ toString n
  else toString n

/-- Python float formatting with format spec `0.3f`: round to three decimal
places and print with exactly three fractional digits.  Rounding is half away
from zero here; CPython rounds half to even, which differs only at exact
ties, never hit by the values considered. -/
def format3 (q : ℚ) : String :=
  let n : Int := ⌊q * 1000 + 1 / 2⌋
  let m : ℕ := n.natAbs
  (if n < 0 then "-" else "") ++ toString (m / 1000) ++ "." ++ pad3 (m % 1000)

/-- One `mean(std)` cell of the excel-style line. -/
def pair3 (mean std : ℚ) : String :=
  format3 mean ++ "(" ++ format3 std ++ ")"

/-- The eight scalar metrics serialized by `test_epoch_end`
(CommonDynamics.py lines 339-348). -/
structure TestMetrics where
  mse_mean : ℚ
  mse_std : ℚ
  vpt_mean : ℚ
  vpt_std : ℚ
  dst_mean : ℚ
  dst_std : ℚ
  vpd_mean : ℚ
  vpd_std : ℚ

/-- The excel-style text written at CommonDynamics.py lines 409-413:
comma-joined `mean(std)` cells in the fixed order mse, vpt, dst, vpd. -/
def test_excel_text (m : TestMetrics) : String :=
  pair3 m.mse_mean m.mse_std ++ "," ++ pair3 m.vpt_mean m.vpt_std ++ "," ++
    pair3 m.dst_mean m.dst_std ++ "," ++ pair3 m.vpd_mean m.vpd_std

/-- The characters of a string are a prefix of the characters of any extension
of it on the right. -/
theorem data_prefix_of_append (s t : String) : s.data <+: (s ++ t).data := by
  rw [String.data_append]
  exact List.prefix_append s.data t.data

/-- C9: for metrics with `mse_mean = 1.234` and `mse_std = 0.056`, the written
excel-style text contains the literal substring `1.234(0.056)` (it is in fact
its leading cell), whatever the remaining metric values are. -/
theorem excel_text_mse_cell (m : TestMetrics)
    (h1 : m.mse_mean = 1234 / 1000) (h2 : m.mse_std = 56 / 1000) :
    "1.234(0.056)".data <:+: (test_excel_text m).data := by
  have hp : pair3 m.mse_mean m.mse_std = "1.234(0.056)" := by
    have hfl1 : ⌊(1234 : ℚ) / 1000 * 1000 + 1 / 2⌋ = (1234 : ℤ) := by norm_num
    have hfl2 : ⌊(56 : ℚ) / 1000 * 1000 + 1 / 2⌋ = (56 : ℤ) := by norm_num
    rw [h1, h2]
    simp only [pair3, format3]
    rw [hfl1, hfl2]
    decide
  have h3 : (pair3 m.mse_mean m.mse_std).data <+: (test_excel_text m).data := by
    unfold test_excel_text
    exact (((((data_prefix_of_append _ _).trans (data_prefix_of_append _ _)).trans
      (data_prefix_of_append _ _)).trans (data_prefix_of_append _ _)).trans
      (data_prefix_of_append _ _)).trans (data_prefix_of_append _ _)
  rw [hp] at h3
  exact List.IsPrefix.isInfix h3

/-- Witness for C9 at a concrete metrics record. -/
theorem excel_text_mse_cell_witness :
    ((⟨1234 / 1000, 56 / 1000, 0, 0, 0, 0, 0, 0⟩ : TestMetrics).mse_mean = 1234 / 1000) ∧
    "1.234(0.056)".data <:+:
      (test_excel_text (⟨1234 / 1000, 56 / 1000, 0, 0, 0, 0, 0, 0⟩ : TestMetrics)).data :=
  ⟨rfl, excel_text_mse_cell ⟨1234 / 1000, 56 / 1000, 0, 0, 0, 0, 0, 0⟩ rfl rfl⟩

/-- C10: when the sequence length `T` is at most `z_amort + 2 * generation_len`
the draw range of `get_step_outputs` is empty and the operation fails for every
draw; whenever `T2 > z_amort + 2 * generation_len` a well-defined result
exists; and this precondition is strictly stronger than
`T > z_amort + generation_len`, witnessed by a length satisfying the weaker
bound but not the stronger one. -/
theorem window_precondition (T z_amort generation_len : Int)
    (hgen : 1 ≤ generation_len) (hshort : T ≤ z_amort + 2 * generation_len) :
    (∀ r, get_step_outputs_model T z_amort generation_len r = none) ∧
    (∀ T2, z_amort + 2 * generation_len < T2 →
      ∃ r, get_step_outputs_model T2 z_amort generation_len r ≠ none) ∧
    (∃ T3, z_amort + generation_len < T3 ∧ T3 ≤ z_amort + 2 * generation_len) := by
  refine ⟨?_, ?_, ?_⟩
  · intro r
    unfold get_step_outputs_model random_start_low random_start_high
    split
    case isTrue h => exact absurd h (by omega)
    case isFalse h => rfl
  · intro T2 hT2
    refine ⟨generation_len, ?_⟩
    unfold get_step_outputs_model random_start_low random_start_high
    rw [if_pos (by omega)]
    simp
  · exact ⟨z_amort + 2 * generation_len, by omega, le_rfl⟩

/-- Witness for C10 at `T = 10`, `z_amort = 2`, `generation_len = 4`. -/
theorem window_precondition_witness :
    ((1:Int) ≤ 4 ∧ (10:Int) ≤ 2 + 2 * 4) ∧
    ((∀ r, get_step_outputs_model 10 2 4 r = none) ∧
     (∀ T2, (2:Int) + 2 * 4 < T2 → ∃ r, get_step_outputs_model T2 2 4 r ≠ none) ∧
     (∃ T3, (2:Int) + 4 < T3 ∧ T3 ≤ 2 + 2 * 4)) :=
  ⟨by decide, window_precondition 10 2 4 (by decide) (by decide)⟩

end TorchNeuralSSM
